import Mathlib

/-!
Verification of the git-msg-unfck repository against its design spec.

The development shallowly embeds the Python sources:
  * `src/cli.py` — argument surface and validation,
  * `src/git_utils.py` — commit selection, inspection, and the rewrite
    strategy engine (amend for HEAD, filter-branch for ancestors),
  * `src/message_generator.py` — the interactive review workflow.

Effectful code is modelled as pure functions over explicit environments
(oracles for git command outcomes, operator input, and the generation
service), producing traces of observable events.
-/

namespace Unfck

/-! ## Commit selector (src/git_utils.py, get_commit_range; src/cli.py) -/

/-- Embeds the argparse namespace produced by `parse_args` in src/cli.py for
the history-processing subcommands: `command` is the subcommand name
(".", "last", "first"), `count` the integer argument of last/first
(argparse enforces int, not positivity), and the two branch flags. -/
structure Args where
  command : String
  count : Int
  all_branches : Bool
  only_main : Bool
  deriving DecidableEq

/-- Read-only view of the repository used by `get_commit_range`: each field
is the hash list a particular git enumeration would return.  `history` is
`git rev-list HEAD`, newest first.  `mergeBaseRange` is the commit list of
`merge_base..HEAD` for the "." command, `none` when `git merge-base` raises
`GitCommandError` (the code then falls back to `branchHistory`). -/
structure RepoView where
  history : List String
  allCommits : List String
  mainHistory : List String
  branchHistory : List String
  mergeBaseRange : Option (List String)

/-- Embeds `repo.iter_commits(ref, max_count=count)`: GitPython passes the
count to `git rev-list --max-count=<count>`, which treats a negative count
as no limit and a count of 0 as an empty enumeration. -/
def iter_commits_max (hist : List String) (count : Int) : List String :=
  if count < 0 then hist else hist.take count.toNat

/-- Embeds `get_commit_range` in src/git_utils.py (lines 24-75).  The branch
structure mirrors the source exactly: a `"last"` branch, a `"."` branch,
then the `all_branches` flag, the `only_main` flag, and the default path
taking `default_commit_count` commits from HEAD.  Note the source has no
branch for the `"first"` command: it falls through to the flag checks and
the default path. -/
def get_commit_range (repo : RepoView) (args : Args) (defaultCount : Int) :
    List String :=
  if args.command = "last" then
    iter_commits_max repo.history args.count
  else if args.command = "." then
    match repo.mergeBaseRange with
    | some cs => cs
    | none => repo.branchHistory
  else if args.all_branches then
    repo.allCommits
  else if args.only_main then
    repo.mainHistory
  else
    iter_commits_max repo.history defaultCount

/-- Embeds `validate_args` in src/cli.py (lines 99-102): the function body is
`pass` — it rejects nothing.  `none` means no validation error. -/
def validate_args (_ : Args) : Option String :=
  none

/-! ## Rewrite strategy engine (src/git_utils.py, lines 103-309) -/

/-- Outcome of one subprocess call to git: success, a nonzero exit status
(`subprocess.CalledProcessError`, raised because the calls use
`check=True`), or any other unexpected exception raised by the call. -/
inductive CallOutcome where
  | ok
  | processError
  | exception
  deriving DecidableEq

/-- The git mutation commands the engine can issue, recorded as a trace.
`cleanBackups` is the `clean_filter_branch_backup` step; `abortRewrite`
stands for an abort/rollback of an in-progress rewrite — the spec's
vocabulary; the source never issues it, so its absence from a trace is
provable. -/
inductive GitCmd where
  | cleanBackups
  | amend
  | filterBranch (rangeArg : String)
  | abortRewrite
  deriving DecidableEq

/-- Environment of the rewrite engine: the hash `git rev-parse HEAD` reports
(`none` when the command fails), whether `git rev-parse <hash>^` succeeds
(i.e. the commit has a parent), and the injected outcomes of the amend and
filter-branch subprocess calls. -/
structure GitEnv where
  head : Option String
  hasParent : String → Bool
  amendOutcome : CallOutcome
  filterOutcome : CallOutcome

/-- Result of a rewrite call: the boolean the Python function returns,
whether the staging file `.git/COMMIT_MSG` exists on disk at the moment of
returning, and the trace of git mutation commands issued. -/
structure RewriteResult where
  ok : Bool
  msgFileExists : Bool
  cmds : List GitCmd
  deriving DecidableEq

/-- Embeds `is_head_commit` (src/git_utils.py lines 103-112): compares the
hash against `git rev-parse HEAD`; any failure of that command yields
`False`. -/
def is_head_commit (env : GitEnv) (commitHash : String) : Bool :=
  match env.head with
  | some h => h = commitHash
  | none => false

/-- Embeds `is_root_commit` (src/git_utils.py lines 115-126): the commit is
root exactly when `git rev-parse <hash>^` exits nonzero. -/
def is_root_commit (env : GitEnv) (commitHash : String) : Bool :=
  !(env.hasParent commitHash)

/-- Embeds `rewrite_head_commit` (src/git_utils.py lines 184-219).  The
staging file is written first; on a successful amend the file is removed
(lines 202-204) and True returned.  The two except handlers (lines
209-219) print diagnostics and return False without removing the file. -/
def rewrite_head_commit (env : GitEnv) (_newMessage : String) : RewriteResult :=
  match env.amendOutcome with
  | .ok => { ok := true, msgFileExists := false, cmds := [.amend] }
  | .processError => { ok := false, msgFileExists := true, cmds := [.amend] }
  | .exception => { ok := false, msgFileExists := true, cmds := [.amend] }

/-- Embeds `rewrite_past_commit` (src/git_utils.py lines 222-292).  The
staging file is written, stale filter-branch backups are cleaned, the
range argument is `--root` for a root commit and `<hash>^..HEAD`
otherwise, then `git filter-branch --force --msg-filter ...` runs.  All
three exit paths (success, `CalledProcessError`, other exception) remove
the staging file (lines 266-267, 280-281, 289-290); no abort or rollback
of the filter-branch operation is ever issued and the function returns a
bare boolean. -/
def rewrite_past_commit (env : GitEnv) (commitHash : String)
    (_newMessage : String) : RewriteResult :=
  let rangeArg :=
    if is_root_commit env commitHash then "--root"
    else commitHash ++ "^..HEAD"
  match env.filterOutcome with
  | .ok =>
      { ok := true, msgFileExists := false
        cmds := [.cleanBackups, .filterBranch rangeArg] }
  | .processError =>
      { ok := false, msgFileExists := false
        cmds := [.cleanBackups, .filterBranch rangeArg] }
  | .exception =>
      { ok := false, msgFileExists := false
        cmds := [.cleanBackups, .filterBranch rangeArg] }

/-- Embeds `rewrite_commit_message` (src/git_utils.py lines 295-309): amend
for the HEAD commit, filter-branch for any other commit. -/
def rewrite_commit_message (env : GitEnv) (commitHash newMessage : String) :
    RewriteResult :=
  if is_head_commit env commitHash then rewrite_head_commit env newMessage
  else rewrite_past_commit env commitHash newMessage

/-! ## Shared-branch detection (src/git_utils.py, lines 312-330) -/

/-- View of the repository used by `is_shared_branch`: the active branch
name (`none` when reading it raises, e.g. detached HEAD) and, per remote,
the remote's name and the branches it tracks.  The reference *names* the
source iterates over are derived from these below, following GitPython
semantics. -/
structure RemotesView where
  activeBranch : Option String
  remotes : List (String × List String)

/-- Embeds `is_shared_branch` (src/git_utils.py lines 312-330): opens the
repository, reads the active branch, builds
`remote_refs = [ref.name for ref in remote.refs]`, and tests whether the
string `refs/remotes/<remote>/<branch>` is among them.  GitPython's
`Reference.name` for a remote reference is the short form
`<remote>/<branch>` (the `refs/remotes/` prefix is stripped), which the
model reproduces by mapping each tracked branch to that short name.  Both
except handlers (lines 326-330) return `False`, so any error while
reading the repository or enumerating remotes yields not-shared. -/
def is_shared_branch (r : Except String RemotesView) : Bool :=
  match r with
  | .error _ => false
  | .ok repo =>
    match repo.activeBranch with
    | none => false
    | some b =>
      repo.remotes.any fun p =>
        (p.2.map (fun br => p.1 ++ "/" ++ br)).contains
          ("refs/remotes/" ++ p.1 ++ "/" ++ b)

/-! ## Review workflow (src/message_generator.py) -/

/-- Record read by `get_commit_info` for a resolvable commit. -/
structure CommitRecord where
  message : String
  authorName : String
  authorEmail : String
  diff : String

/-- Operator decision at the accept prompt: `prompt_for_action` loops until
the input is one of y, n, e, s, so the model receives a valid choice. -/
inductive Action where
  | accept
  | edit
  | reject
  | skip
  deriving DecidableEq

/-- Environment of `process_commits`: the repository view consumed by
`is_shared_branch` (an error value models an exception while reading it),
the commit-inspection oracle (`error` models `get_commit_info` raising),
the generation service (`none` models `get_improved_message` returning
None), the operator's answers, the editor result, and whether each
`rewrite_commit_message` call succeeds. -/
structure Env where
  repo : Except String RemotesView
  info : String → Except String CommitRecord
  gen : String → String → Option String → Option String
  decideAction : String → Action
  editResult : String → String
  sharedAnswer : String
  whyGlobal : String
  whyAnswer : String → String
  rewriteOk : String → String → Bool

/-- Configuration keys `process_commits` reads from the `behavior` section
(defaults in src/config.py: all three True). -/
structure Config where
  warnOnSharedBranches : Bool
  showDiff : Bool
  removeQuotes : Bool

/-- Observable events of one `process_commits` run, in program order. -/
inductive Event where
  | noCommits
  | warnShared
  | abortRun
  | infoError (h : String)
  | display (h : String)
  | generate (h : String)
  | genError (h : String)
  | wouldApply (h msg : String)
  | mutate (h msg : String)
  | rewriteSucceeded (h : String)
  | rewriteFailed (h : String)
  | keepOriginal (h : String)
  | skipCommit (h : String)
  | done
  deriving DecidableEq

/-- The mutation events of a trace: calls to `rewrite_commit_message`. -/
def mutationsOf (tr : List Event) : List Event :=
  tr.filter fun e =>
    match e with
    | .mutate _ _ => true
    | _ => false

/-- Executable model of the Python str.strip() method: remove leading and
trailing whitespace.  Written over the character list so the kernel can
evaluate it on concrete inputs. -/
def pyStrip (s : String) : String :=
  String.mk (((s.data.dropWhile Char.isWhitespace).reverse.dropWhile
    Char.isWhitespace).reverse)

/-- Executable model of the Python str.lower() method, used on the
single-letter prompt answers. -/
def pyLower (s : String) : String :=
  String.mk (s.data.map Char.toLower)

/-- Embeds `get_commit_info` (src/git_utils.py lines 78-100): message
stripped, author formatted `name <email>`, diff text; both except handlers
return three empty strings. -/
def get_commit_info (env : Env) (h : String) : String × String × String :=
  match env.info h with
  | .error _ => ("", "", "")
  | .ok c =>
      (pyStrip c.message, c.authorName ++ " <" ++ c.authorEmail ++ ">",
        c.diff)

/-- Embeds `clean_message` (src/message_generator.py lines 79-84): strips
one pair of surrounding double quotes when both are present (Python
startswith plus endswith, then the slice [1:-1]). -/
def clean_message (message : String) : String :=
  if message.data.head? = some '"' ∧ message.data.getLast? = some '"' then
    String.mk ((message.data.drop 1).dropLast)
  else message

/-- Events of one call to `rewrite_commit_message` from the workflow: the
mutation itself followed by the success or failure report (lines 205-208,
216-219, 229-232 of src/message_generator.py). -/
def applyRewrite (env : Env) (h improved : String) : List Event :=
  .mutate h improved ::
    (if env.rewriteOk h improved then [.rewriteSucceeded h]
     else [.rewriteFailed h])

/-- Embeds the operator-decision dispatch of `process_commits`
(src/message_generator.py lines 210-238): accept applies (or reports in
dry-run), edit runs the editor then applies, reject prints "Keeping
original message", skip prints "Skipping this commit". -/
def handle_action (a : Action) (env : Env) (cfg : Config) (dryRun : Bool)
    (h improved : String) : List Event :=
  match a with
  | .accept =>
      if dryRun then [.wouldApply h improved]
      else applyRewrite env h improved
  | .edit =>
      let edited := env.editResult improved
      let edited :=
        if cfg.removeQuotes then clean_message edited else edited
      if dryRun then [.wouldApply h edited]
      else applyRewrite env h edited
  | .reject => [.keepOriginal h]
  | .skip => [.skipCommit h]

/-- Embeds the body of the per-commit loop of `process_commits`
(src/message_generator.py lines 157-238) for one commit: inspect, bail out
when the message or diff is empty, display, pick the reason, call the
generation service, bail out when it yields nothing, optionally strip
quotes, then auto-apply or dispatch on the operator decision. -/
def processOne (env : Env) (cfg : Config) (autoApply askWhy dryRun : Bool)
    (sharedReason : Option String) (total : Nat) (h : String) : List Event :=
  let info := get_commit_info env h
  let msg := info.1
  let diff := info.2.2
  if msg = "" ∨ diff = "" then [.infoError h]
  else
    let reason :=
      if askWhy = true ∧ total = 1 then some (pyStrip (env.whyAnswer h))
      else sharedReason
    let improved := (env.gen diff msg reason).getD ""
    if improved = "" then [.display h, .generate h, .genError h]
    else
      let improved :=
        if cfg.removeQuotes then clean_message improved else improved
      [.display h, .generate h] ++
        (if autoApply then
          if dryRun then [.wouldApply h improved]
          else applyRewrite env h improved
        else handle_action (env.decideAction h) env cfg dryRun h improved)

/-- The per-commit loop of `process_commits`: commits are processed strictly
in order, each via `processOne`. -/
def processLoop (env : Env) (cfg : Config) (autoApply askWhy dryRun : Bool)
    (sharedReason : Option String) (total : Nat) :
    List String → List Event
  | [] => []
  | h :: rest =>
      processOne env cfg autoApply askWhy dryRun sharedReason total h ++
        processLoop env cfg autoApply askWhy dryRun sharedReason total rest

/-- Everything `process_commits` does after the shared-branch gate: compute
the shared reason (a single prompt when ask-why is set and several commits
are in scope, else the global reason), run the loop, print "Done!". -/
def run_body (env : Env) (cfg : Config) (autoApply askWhy dryRun : Bool)
    (globalWhy : Option String) (hashes : List String) : List Event :=
  let sharedReason :=
    if askWhy = true ∧ 1 < hashes.length then some (pyStrip env.whyGlobal)
    else globalWhy
  processLoop env cfg autoApply askWhy dryRun sharedReason hashes.length
      hashes ++ [.done]

/-- Embeds `process_commits` (src/message_generator.py lines 115-240).  An
empty commit list returns immediately.  The shared-branch warning fires
only when the config flag is set, the run is not a dry run, auto-apply is
off, and `is_shared_branch` reports shared; the operator's lowercased
answer must be exactly "y" to continue, anything else aborts the whole
run. -/
def process_commits (env : Env) (hashes : List String)
    (autoApply askWhy : Bool) (globalWhy : Option String) (dryRun : Bool)
    (cfg : Config) : List Event :=
  if hashes.isEmpty then [.noCommits]
  else if cfg.warnOnSharedBranches && !dryRun && !autoApply &&
      is_shared_branch env.repo then
    if pyLower env.sharedAnswer ≠ "y" then [.warnShared, .abortRun]
    else .warnShared :: run_body env cfg autoApply askWhy dryRun globalWhy hashes
  else run_body env cfg autoApply askWhy dryRun globalWhy hashes

/-! ## Claims about the rewrite strategy engine -/

/-- Claim C1 (code-bug evidence): a tip rewrite whose amend subprocess
exits nonzero returns with the staging file .git/COMMIT_MSG still on
disk — the except handlers of rewrite_head_commit (src/git_utils.py lines
209-219) return False without removing it, contradicting the spec
invariant that no transient staging file survives any exit path. -/
theorem tip_amend_failure_leaves_staging_file :
    (rewrite_commit_message
      { head := some "c1", hasParent := fun _ => true
        amendOutcome := .processError, filterOutcome := .ok }
      "c1" "new message").msgFileExists = true ∧
    (rewrite_commit_message
      { head := some "c1", hasParent := fun _ => true
        amendOutcome := .processError, filterOutcome := .ok }
      "c1" "new message").ok = false :=
  ⟨rfl, rfl⟩

/-- Claim C2, counterexample: an ancestor rewrite whose filter-branch call
exits nonzero returns a bare False with no abort or rollback command ever
issued — the except handler (src/git_utils.py lines 272-283) only removes
the staging file; there is no Failure outcome with a recovered flag. -/
theorem ancestor_failure_no_abort_attempted :
    (rewrite_past_commit
      { head := some "tip", hasParent := fun _ => true
        amendOutcome := .ok, filterOutcome := .processError }
      "c2" "new message").ok = false ∧
    GitCmd.abortRewrite ∉
      (rewrite_past_commit
        { head := some "tip", hasParent := fun _ => true
          amendOutcome := .ok, filterOutcome := .processError }
        "c2" "new message").cmds := by
  refine ⟨rfl, ?_⟩
  simp [rewrite_past_commit]

/-- Claim C2 (amended): for every ancestor rewrite whose filter-branch call
fails, the engine removes the staging file, issues no abort or rollback of
the in-progress rewrite, and returns a bare failure boolean — no recovered
flag is recorded anywhere. -/
theorem ancestor_failure_bare_result (env : GitEnv) (h m : String)
    (hf : env.filterOutcome ≠ CallOutcome.ok) :
    (rewrite_past_commit env h m).ok = false ∧
    (rewrite_past_commit env h m).msgFileExists = false ∧
    GitCmd.abortRewrite ∉ (rewrite_past_commit env h m).cmds := by
  cases hfo : env.filterOutcome with
  | ok => exact absurd hfo hf
  | processError => simp [rewrite_past_commit, hfo]
  | exception => simp [rewrite_past_commit, hfo]

/-- Witness for ancestor_failure_bare_result at a concrete failing run. -/
theorem ancestor_failure_bare_result_witness :
    ({ head := some "tip", hasParent := fun _ => true
       amendOutcome := .ok, filterOutcome := .processError :
       GitEnv }).filterOutcome ≠ CallOutcome.ok ∧
    ((rewrite_past_commit
      { head := some "tip", hasParent := fun _ => true
        amendOutcome := .ok, filterOutcome := .processError }
      "c9" "msg").ok = false ∧
    (rewrite_past_commit
      { head := some "tip", hasParent := fun _ => true
        amendOutcome := .ok, filterOutcome := .processError }
      "c9" "msg").msgFileExists = false ∧
    GitCmd.abortRewrite ∉
      (rewrite_past_commit
        { head := some "tip", hasParent := fun _ => true
          amendOutcome := .ok, filterOutcome := .processError }
        "c9" "msg").cmds) :=
  ⟨by decide,
   ancestor_failure_bare_result
     { head := some "tip", hasParent := fun _ => true
       amendOutcome := .ok, filterOutcome := .processError }
     "c9" "msg" (by decide)⟩

/-- Claim C3: rewrite_commit_message uses the in-place amend strategy
exactly when the target is the HEAD commit; otherwise it runs the
filter-branch substitution over the range from the immediate parent of
the target to HEAD, or over the entire history (the --root argument) when
the target has no parent. -/
theorem rewrite_strategy_dispatch (env : GitEnv) (h m : String) :
    (is_head_commit env h = true ↔
      (rewrite_commit_message env h m).cmds = [GitCmd.amend]) ∧
    (is_head_commit env h = false →
      (rewrite_commit_message env h m).cmds =
        [GitCmd.cleanBackups,
         GitCmd.filterBranch
           (if is_root_commit env h then "--root" else h ++ "^..HEAD")]) := by
  by_cases hh : is_head_commit env h
  · constructor
    · constructor
      · intro _
        simp only [rewrite_commit_message, if_pos hh, rewrite_head_commit]
        cases env.amendOutcome <;> rfl
      · intro _
        exact hh
    · intro hcontra
      rw [hh] at hcontra
      exact absurd hcontra (by decide)
  · have hfalse : is_head_commit env h = false := by
      simpa using hh
    constructor
    · constructor
      · intro htrue
        exact absurd htrue (by simp [hfalse])
      · intro hcmds
        have : (rewrite_commit_message env h m).cmds =
            (rewrite_past_commit env h m).cmds := by
          simp [rewrite_commit_message, hfalse]
        rw [this] at hcmds
        cases hfo : env.filterOutcome <;>
          simp [rewrite_past_commit, hfo] at hcmds
    · intro _
      simp only [rewrite_commit_message, hfalse, Bool.false_eq_true,
        if_neg (by simp : ¬False)]
      cases hfo : env.filterOutcome <;>
        simp [rewrite_past_commit, hfo]

/-- Witness for rewrite_strategy_dispatch at a concrete non-HEAD target. -/
theorem rewrite_strategy_dispatch_witness :
    is_head_commit
      { head := some "tip", hasParent := fun c => c ≠ "root"
        amendOutcome := .ok, filterOutcome := .ok } "mid" = false ∧
    (rewrite_commit_message
      { head := some "tip", hasParent := fun c => c ≠ "root"
        amendOutcome := .ok, filterOutcome := .ok } "mid" "msg").cmds =
      [GitCmd.cleanBackups,
       GitCmd.filterBranch
         (if is_root_commit
            { head := some "tip", hasParent := fun c => c ≠ "root"
              amendOutcome := .ok, filterOutcome := .ok } "mid"
          then "--root" else "mid" ++ "^..HEAD")] :=
  ⟨by decide,
   (rewrite_strategy_dispatch
     { head := some "tip", hasParent := fun c => c ≠ "root"
       amendOutcome := .ok, filterOutcome := .ok } "mid" "msg").2
     (by decide)⟩

/-! ## Claims about the commit selector -/

/-- Claim C4 (code-bug evidence): get_commit_range has no branch for the
"first" command, so a first-1 request on a three-commit history (newest
first: c3, c2, c1) falls through to the default path and yields the last
default_commit_count commits newest-first — not the single oldest commit
c1 that the claim and the CLI help text describe. -/
theorem first_mode_ignores_count_and_order :
    get_commit_range
      { history := ["c3", "c2", "c1"], allCommits := ["c3", "c2", "c1"]
        mainHistory := ["c3", "c2", "c1"], branchHistory := ["c3", "c2", "c1"]
        mergeBaseRange := none }
      { command := "first", count := 1, all_branches := false
        only_main := false } 5 = ["c3", "c2", "c1"] ∧
    get_commit_range
      { history := ["c3", "c2", "c1"], allCommits := ["c3", "c2", "c1"]
        mainHistory := ["c3", "c2", "c1"], branchHistory := ["c3", "c2", "c1"]
        mergeBaseRange := none }
      { command := "first", count := 1, all_branches := false
        only_main := false } 5 ≠ ["c1"] := by
  constructor
  · rfl
  · decide

/-- Claim C5: in last-N mode with positive N, the selector returns exactly
the first min(N, history length) entries of the newest-first history — so
the result is ordered most-recent-first and, since real histories carry
distinct hashes, duplicate-free. -/
theorem last_mode_returns_min_newest (repo : RepoView) (n d : Int)
    (hn : 0 < n) (hnd : repo.history.Nodup) :
    get_commit_range repo
        { command := "last", count := n, all_branches := false
          only_main := false } d =
      repo.history.take n.toNat ∧
    (get_commit_range repo
        { command := "last", count := n, all_branches := false
          only_main := false } d).length =
      min n.toNat repo.history.length ∧
    (get_commit_range repo
        { command := "last", count := n, all_branches := false
          only_main := false } d).Nodup := by
  have hsel : get_commit_range repo
      { command := "last", count := n, all_branches := false
        only_main := false } d = repo.history.take n.toNat := by
    simp [get_commit_range, iter_commits_max, not_lt.mpr hn.le]
  refine ⟨hsel, ?_, ?_⟩
  · rw [hsel, List.length_take]
  · rw [hsel]
    exact hnd.sublist (List.take_sublist _ _)

/-- Witness for last_mode_returns_min_newest on a two-commit history. -/
theorem last_mode_returns_min_newest_witness :
    0 < (3 : Int) ∧ (["b", "a"] : List String).Nodup ∧
    get_commit_range
        { history := ["b", "a"], allCommits := [], mainHistory := []
          branchHistory := [], mergeBaseRange := none }
        { command := "last", count := 3, all_branches := false
          only_main := false } 5 = ["b", "a"] :=
  ⟨by decide, by decide,
   (last_mode_returns_min_newest
     { history := ["b", "a"], allCommits := [], mainHistory := []
       branchHistory := [], mergeBaseRange := none }
     3 5 (by decide) (by decide)).1⟩

/-- Claim C6, counterexample: a count of 0 or below produces no InvalidCount
failure anywhere — validate_args accepts every integer (its body is pass),
last-0 returns the empty range, and last-(-1) returns the entire history,
because git rev-list treats a negative max-count as unlimited. -/
theorem nonpositive_count_yields_range :
    validate_args
      { command := "last", count := 0, all_branches := false
        only_main := false } = none ∧
    get_commit_range
      { history := ["c3", "c2", "c1"], allCommits := []
        mainHistory := [], branchHistory := [], mergeBaseRange := none }
      { command := "last", count := 0, all_branches := false
        only_main := false } 5 = [] ∧
    get_commit_range
      { history := ["c3", "c2", "c1"], allCommits := []
        mainHistory := [], branchHistory := [], mergeBaseRange := none }
      { command := "last", count := -1, all_branches := false
        only_main := false } 5 = ["c3", "c2", "c1"] :=
  ⟨rfl, rfl, rfl⟩

/-- Claim C6 (amended): for every N at most 0, neither CLI validation nor
selection fails: validation accepts the value, last mode yields the whole
history for negative N and the empty range for N equal to 0, and first
mode ignores the count entirely, falling through to the default path. -/
theorem nonpositive_count_behavior (repo : RepoView) (n d : Int)
    (hn : n ≤ 0) :
    validate_args
      { command := "last", count := n, all_branches := false
        only_main := false } = none ∧
    get_commit_range repo
        { command := "last", count := n, all_branches := false
          only_main := false } d =
      (if n < 0 then repo.history else []) ∧
    get_commit_range repo
        { command := "first", count := n, all_branches := false
          only_main := false } d =
      iter_commits_max repo.history d := by
  refine ⟨rfl, ?_, ?_⟩
  · simp only [get_commit_range, if_pos rfl, iter_commits_max]
    by_cases hneg : n < 0
    · simp [hneg]
    · have hz : n = 0 := le_antisymm hn (not_lt.mp hneg)
      simp [hz]
  · rfl

/-- Witness for nonpositive_count_behavior at N equal to 0. -/
theorem nonpositive_count_behavior_witness :
    (0 : Int) ≤ 0 ∧
    get_commit_range
        { history := ["b", "a"], allCommits := [], mainHistory := []
          branchHistory := [], mergeBaseRange := none }
        { command := "last", count := 0, all_branches := false
          only_main := false } 7 =
      (if (0 : Int) < 0 then (["b", "a"] : List String) else []) :=
  ⟨by decide,
   (nonpositive_count_behavior
     { history := ["b", "a"], allCommits := [], mainHistory := []
       branchHistory := [], mergeBaseRange := none }
     0 7 (by decide)).2.1⟩

/-! ## Helper lemmas: the per-commit loop never emits the shared-branch
warning, which is produced only by the gate at the top of
process_commits. -/

theorem warnShared_notin_applyRewrite (env : Env) (h m : String) :
    Event.warnShared ∉ applyRewrite env h m := by
  unfold applyRewrite
  by_cases hr : env.rewriteOk h m = true <;> simp [hr]

theorem warnShared_notin_handle_action (a : Action) (env : Env)
    (cfg : Config) (dryRun : Bool) (h m : String) :
    Event.warnShared ∉ handle_action a env cfg dryRun h m := by
  cases a with
  | accept =>
      unfold handle_action
      by_cases hd : dryRun = true <;>
        simp [hd, warnShared_notin_applyRewrite]
  | edit =>
      unfold handle_action
      by_cases hd : dryRun = true <;>
        simp [hd, warnShared_notin_applyRewrite]
  | reject => simp [handle_action]
  | skip => simp [handle_action]

theorem warnShared_notin_processOne (env : Env) (cfg : Config)
    (a w d : Bool) (sr : Option String) (t : Nat) (h : String) :
    Event.warnShared ∉ processOne env cfg a w d sr t h := by
  unfold processOne
  dsimp only
  split_ifs <;>
    simp [warnShared_notin_handle_action, warnShared_notin_applyRewrite]

theorem warnShared_notin_processLoop (env : Env) (cfg : Config)
    (a w d : Bool) (sr : Option String) (t : Nat) (hs : List String) :
    Event.warnShared ∉ processLoop env cfg a w d sr t hs := by
  induction hs with
  | nil => simp [processLoop]
  | cons x rest ih =>
      simp [processLoop, warnShared_notin_processOne, ih]

theorem warnShared_notin_run_body (env : Env) (cfg : Config)
    (a w d : Bool) (gw : Option String) (hs : List String) :
    Event.warnShared ∉ run_body env cfg a w d gw hs := by
  unfold run_body
  simp [warnShared_notin_processLoop]

/-! ## Claims about the review workflow -/

/-- Repository view of an ordinary shared branch: the active branch main is
tracked by the remote origin, whose GitPython reference names are the
short forms origin/main and origin/dev. -/
def trackedRemotes : RemotesView :=
  { activeBranch := some "main"
    remotes := [("origin", ["main", "dev"])] }

/-- Environment of an interactive run on that tracked branch: inspection,
generation and rewriting all succeed, and the operator accepts the
candidate message. -/
def envTracked : Env :=
  { repo := .ok trackedRemotes
    info := fun _ => .ok
      { message := "fix stuff", authorName := "Ann"
        authorEmail := "ann@example.com", diff := "diff text" }
    gen := fun _ _ _ => some "Improve parser error messages"
    decideAction := fun _ => .accept
    editResult := id
    sharedAnswer := "n"
    whyGlobal := ""
    whyAnswer := fun _ => ""
    rewriteOk := fun _ _ => true }

/-- Claim C7 (code-bug evidence): an interactive, non-dry run with the
warning policy enabled, on a branch main that origin does track, mutates
the accepted commit with no warning and no confirmation.
is_shared_branch tests the full path refs/remotes/origin/main against the
GitPython short-form reference names (origin/main, origin/dev), so the
membership never succeeds, the function returns False, and the
shared-branch gate of process_commits is dead code on real repositories.
(Independently, runs with auto-apply enabled bypass the gate by
construction: the condition at src/message_generator.py line 133 also
requires not auto_apply.) -/
theorem tracked_branch_mutates_without_warning :
    is_shared_branch envTracked.repo = false ∧
    process_commits envTracked ["c1"] false false none false
        { warnOnSharedBranches := true, showDiff := true
          removeQuotes := true } =
      [Event.display "c1", Event.generate "c1",
       Event.mutate "c1" "Improve parser error messages",
       Event.rewriteSucceeded "c1", Event.done] ∧
    Event.warnShared ∉
      process_commits envTracked ["c1"] false false none false
        { warnOnSharedBranches := true, showDiff := true
          removeQuotes := true } ∧
    Event.mutate "c1" "Improve parser error messages" ∈
      process_commits envTracked ["c1"] false false none false
        { warnOnSharedBranches := true, showDiff := true
          removeQuotes := true } := by
  refine ⟨?_, ?_, ?_, ?_⟩ <;> decide

/-- Claim C8: the reject and skip decisions are behaviourally identical —
each produces exactly one label event and nothing else (in particular no
mutation), and the loop then continues structurally with the remaining
commits; only the printed label differs. -/
theorem reject_skip_same_effect (env : Env) (cfg : Config) (dryRun : Bool)
    (h improved : String) :
    handle_action .reject env cfg dryRun h improved =
      [Event.keepOriginal h] ∧
    handle_action .skip env cfg dryRun h improved =
      [Event.skipCommit h] ∧
    mutationsOf (handle_action .reject env cfg dryRun h improved) = [] ∧
    mutationsOf (handle_action .skip env cfg dryRun h improved) = [] ∧
    ∀ (autoApply askWhy : Bool) (sharedReason : Option String)
      (total : Nat) (rest : List String),
      processLoop env cfg autoApply askWhy dryRun sharedReason total
          (h :: rest) =
        processOne env cfg autoApply askWhy dryRun sharedReason total h ++
          processLoop env cfg autoApply askWhy dryRun sharedReason total
            rest :=
  ⟨rfl, rfl, rfl, rfl, fun _ _ _ _ _ => rfl⟩

/-- Environment in which opening the repository raises, as seen by
is_shared_branch. -/
def envRepoError : Env :=
  { repo := .error "InvalidGitRepositoryError"
    info := fun _ => .ok
      { message := "fix stuff", authorName := "Ann"
        authorEmail := "ann@example.com", diff := "diff text" }
    gen := fun _ _ _ => some "Improve parser error messages"
    decideAction := fun _ => .reject
    editResult := id
    sharedAnswer := "n"
    whyGlobal := ""
    whyAnswer := fun _ => ""
    rewriteOk := fun _ _ => true }

/-- Claim C9: when reading the repository or its remotes fails,
is_shared_branch returns false (both except handlers, src/git_utils.py
lines 326-330), so the shared-branch warning never appears in the run. -/
theorem repo_error_suppresses_shared_warning (env : Env) (e : String)
    (he : env.repo = Except.error e) (hashes : List String)
    (autoApply askWhy : Bool) (globalWhy : Option String) (dryRun : Bool)
    (cfg : Config) :
    is_shared_branch env.repo = false ∧
    Event.warnShared ∉
      process_commits env hashes autoApply askWhy globalWhy dryRun cfg := by
  have hsb : is_shared_branch env.repo = false := by
    rw [he]; rfl
  refine ⟨hsb, ?_⟩
  unfold process_commits
  by_cases hni : hashes.isEmpty = true
  · rw [if_pos hni]; simp
  · rw [if_neg hni]
    have hgate : (cfg.warnOnSharedBranches && !dryRun && !autoApply &&
        is_shared_branch env.repo) = false := by
      rw [hsb, Bool.and_false]
    rw [if_neg (by simp [hgate])]
    exact warnShared_notin_run_body env cfg autoApply askWhy dryRun
      globalWhy hashes

/-- Witness for repo_error_suppresses_shared_warning on a concrete failing
repository read. -/
theorem repo_error_suppresses_shared_warning_witness :
    (is_shared_branch envRepoError.repo = false ∧
     Event.warnShared ∉
       process_commits envRepoError ["c1"] false false none false
         { warnOnSharedBranches := true, showDiff := true
           removeQuotes := true }) :=
  repo_error_suppresses_shared_warning envRepoError
    "InvalidGitRepositoryError" rfl ["c1"] false false none false
    { warnOnSharedBranches := true, showDiff := true, removeQuotes := true }

/-- Environment in which inspecting any commit raises, so get_commit_info
returns three empty strings. -/
def envInfoError : Env :=
  { repo := .error "InvalidGitRepositoryError"
    info := fun _ => .error "BadName"
    gen := fun _ _ _ => some "Improve parser error messages"
    decideAction := fun _ => .accept
    editResult := id
    sharedAnswer := "y"
    whyGlobal := ""
    whyAnswer := fun _ => ""
    rewriteOk := fun _ _ => true }

/-- Claim C10: a commit whose inspection yields an empty message or an
empty diff — in particular any commit whose inspection raised, since
get_commit_info then returns three empty strings — is reported and
skipped: no generation request, no mutation, and the loop continues
structurally with the remaining commits. -/
theorem empty_info_skips_commit (env : Env) (cfg : Config)
    (autoApply askWhy dryRun : Bool) (sharedReason : Option String)
    (total : Nat) (h : String)
    (hmd : (get_commit_info env h).1 = "" ∨
           (get_commit_info env h).2.2 = "") :
    processOne env cfg autoApply askWhy dryRun sharedReason total h =
      [Event.infoError h] ∧
    Event.generate h ∉
      processOne env cfg autoApply askWhy dryRun sharedReason total h ∧
    mutationsOf
      (processOne env cfg autoApply askWhy dryRun sharedReason total h) =
      [] ∧
    (∀ e2, env.info h = Except.error e2 →
      get_commit_info env h = ("", "", "")) ∧
    (∀ rest : List String,
      processLoop env cfg autoApply askWhy dryRun sharedReason total
          (h :: rest) =
        processOne env cfg autoApply askWhy dryRun sharedReason total h ++
          processLoop env cfg autoApply askWhy dryRun sharedReason total
            rest) := by
  have hone : processOne env cfg autoApply askWhy dryRun sharedReason
      total h = [Event.infoError h] := by
    unfold processOne
    rw [if_pos hmd]
  refine ⟨hone, ?_, ?_, ?_, fun _ => rfl⟩
  · rw [hone]; simp
  · rw [hone]; rfl
  · intro e2 he2
    unfold get_commit_info
    rw [he2]

/-- Witness for empty_info_skips_commit: inspection of c1 raises, so the
commit is skipped with no generation and no mutation. -/
theorem empty_info_skips_commit_witness :
    ((get_commit_info envInfoError "c1").1 = "" ∨
     (get_commit_info envInfoError "c1").2.2 = "") ∧
    processOne envInfoError
        { warnOnSharedBranches := true, showDiff := true
          removeQuotes := true }
        false false false none 1 "c1" = [Event.infoError "c1"] :=
  ⟨Or.inl rfl,
   (empty_info_skips_commit envInfoError
     { warnOnSharedBranches := true, showDiff := true, removeQuotes := true }
     false false false none 1 "c1" (Or.inl rfl)).1⟩

end Unfck
